import Mathlib

set_option maxRecDepth 100000

/-!
Shallow embedding of the core pipeline of `src/app.py` (Semantic CV Analyzer):

* `JsonValue` — the values Python's `json.loads` can produce;
* `AnalysisResult.from_dict` — the dataclass constructor (app.py lines 79-89);
* `json_loads` — a model of Python's `json.loads` (strict RFC-8259 JSON;
  parse failure is `none`, mirroring `json.JSONDecodeError`);
* `PDFProcessor.extract_text` — text extraction (app.py lines 107-122), with
  the external PyPDF2 reader abstracted into a `PdfDoc` value (either the
  reader raises, or it yields the per-page `page.extract_text()` strings);
* `AIAnalyzer.analyze` — the analysis pipeline (app.py lines 142-174); the
  external generation call is a function parameter whose `none` outcome
  models an exception from `generate_content`/`response.text`, and the
  second component of the result records the list of prompts passed to the
  generation capability, so call counts are observable.

Python exceptions that the source catches are modelled as `none`/`Option`
failures; Python `int(x)` is modelled by `pyInt` below.
-/

/-- Values produced by Python's `json.loads`: `null`, booleans, integers,
floats (represented exactly as decimals `m / 10 ^ e`, the form JSON number
literals denote), strings, arrays and objects (association lists; later
duplicate keys win on lookup, as in a Python dict built by `json.loads`). -/
inductive JsonValue where
  | null : JsonValue
  | bool (b : Bool) : JsonValue
  | int (n : Int) : JsonValue
  | dec (m : Int) (e : Nat) : JsonValue
  | str (s : String) : JsonValue
  | arr (xs : List JsonValue) : JsonValue
  | obj (kvs : List (String × JsonValue)) : JsonValue

/-- Lookup with default, modelling Python's `dict.get(k, d)` on a dict built
from an association list where later bindings overwrite earlier ones. -/
def jgetD (kvs : List (String × JsonValue)) (k : String) (d : JsonValue) : JsonValue :=
  match kvs with
  | [] => d
  | (k', v) :: rest => if k' = k then jgetD rest k v else jgetD rest k d

/-- ASCII whitespace stripped by Python's `str.strip()` (as far as JSON-derived
strings are concerned). -/
def isPyWs (c : Char) : Bool :=
  c = ' ' || c = '\t' || c = '\n' || c = '\r' || c = '\x0B' || c = '\x0C'

/-- Strip leading and trailing whitespace from a character list. -/
def stripChars (cs : List Char) : List Char :=
  ((cs.dropWhile isPyWs).reverse.dropWhile isPyWs).reverse

/-- Accumulate the value of a digit string that may contain single underscores
between digits (Python integer-literal rule used by `int(str)`). -/
def digitsCore (acc : Nat) : List Char → Option Nat
  | [] => some acc
  | '_' :: c :: cs =>
    if c.isDigit then digitsCore (acc * 10 + (c.toNat - 48)) cs else none
  | c :: cs =>
    if c.isDigit then digitsCore (acc * 10 + (c.toNat - 48)) cs else none

/-- Value of a non-empty digit string (underscore rule as in Python). -/
def digitsVal : List Char → Option Nat
  | [] => none
  | c :: cs => if c.isDigit then digitsCore (c.toNat - 48) cs else none

/-- Python `int(s)` for a string `s`: strip whitespace, optional single sign,
then a non-empty digit string; anything else raises `ValueError` (`none`). -/
def pyIntOfString (s : String) : Option Int :=
  match stripChars s.data with
  | '+' :: rest => (digitsVal rest).map (fun n => (n : Int))
  | '-' :: rest => (digitsVal rest).map (fun n => -(n : Int))
  | cs => (digitsVal cs).map (fun n => (n : Int))

/-- Python `int(x)` applied to a value obtained from `json.loads` (or to the
literal default `0`): the identity on ints, `True`/`False` become `1`/`0`
(bool is an int subclass), floats truncate toward zero, strings are parsed
as integer literals, and `None`, lists and dicts raise (`none`). -/
def pyInt : JsonValue → Option Int
  | .int n => some n
  | .bool b => some (if b then 1 else 0)
  | .dec m e => some (m.tdiv ((10 : Int) ^ e))
  | .str s => pyIntOfString s
  | .null => none
  | .arr _ => none
  | .obj _ => none

/-- The `AnalysisResult` dataclass (app.py lines 68-89).  The score fields are
Python ints; the last three fields are declared `List[str]`/`str` in the
dataclass but Python does not enforce the annotation, so `from_dict` stores
whatever value the parsed JSON held — they are modelled as `JsonValue`. -/
structure AnalysisResult where
  technical_score : Int
  experience_score : Int
  soft_skill_score : Int
  overall_average : Int
  missing_keywords : JsonValue
  candidate_summary : JsonValue
  interview_question : JsonValue

namespace AnalysisResult

/-- Model of `AnalysisResult.from_dict` (app.py lines 79-89).  On a dict it
applies `int(data.get(key, 0))` to the four score keys — which raises
(`none`) when a value is not int-coercible — and passes the remaining three
values through unchanged with defaults `[]`, `"N/A"`, `"N/A"`.  On a
non-dict argument `.get` raises `AttributeError` (`none`). -/
def from_dict (data : JsonValue) : Option AnalysisResult :=
  match data with
  | .obj kvs =>
    match pyInt (jgetD kvs "technical_score" (.int 0)),
          pyInt (jgetD kvs "experience_score" (.int 0)),
          pyInt (jgetD kvs "soft_skill_score" (.int 0)),
          pyInt (jgetD kvs "overall_average" (.int 0)) with
    | some ts, some es, some ss, some oa =>
      some ⟨ts, es, ss, oa,
        jgetD kvs "missing_keywords" (.arr []),
        jgetD kvs "candidate_summary" (.str "N/A"),
        jgetD kvs "interview_question" (.str "N/A")⟩
    | _, _, _, _ => none
  | _ => none

end AnalysisResult

/-- Skip JSON whitespace (space, tab, newline, carriage return). -/
def skipJsonWs : List Char → List Char
  | c :: cs => if c = ' ' || c = '\t' || c = '\n' || c = '\r' then skipJsonWs cs else c :: cs
  | [] => []

/-- Value of a hexadecimal digit. -/
def hexVal (c : Char) : Option Nat :=
  if '0' ≤ c && c ≤ '9' then some (c.toNat - 48)
  else if 'a' ≤ c && c ≤ 'f' then some (c.toNat - 87)
  else if 'A' ≤ c && c ≤ 'F' then some (c.toNat - 55)
  else none

/-- Parse the body of a JSON string literal (input starts after the opening
quote); handles the standard escapes, `\uXXXX` escapes with surrogate-pair
combination, and rejects unescaped control characters, like Python's
`json.loads` in its default strict mode.  The fuel argument only bounds
recursion; callers pass at least `length + 1`, which never runs out since
every step consumes at least one character. -/
def parseStringBody (fuel : Nat) (acc : List Char) (input : List Char) :
    Option (String × List Char) :=
  match fuel with
  | 0 => none
  | fuel + 1 =>
    match input with
    | [] => none
    | '"' :: cs => some (String.mk acc.reverse, cs)
    | '\\' :: '"' :: cs => parseStringBody fuel ('"' :: acc) cs
    | '\\' :: '\\' :: cs => parseStringBody fuel ('\\' :: acc) cs
    | '\\' :: '/' :: cs => parseStringBody fuel ('/' :: acc) cs
    | '\\' :: 'b' :: cs => parseStringBody fuel ('\x08' :: acc) cs
    | '\\' :: 'f' :: cs => parseStringBody fuel ('\x0C' :: acc) cs
    | '\\' :: 'n' :: cs => parseStringBody fuel ('\n' :: acc) cs
    | '\\' :: 'r' :: cs => parseStringBody fuel ('\r' :: acc) cs
    | '\\' :: 't' :: cs => parseStringBody fuel ('\t' :: acc) cs
    | '\\' :: 'u' :: h1 :: h2 :: h3 :: h4 :: cs =>
      (match hexVal h1, hexVal h2, hexVal h3, hexVal h4 with
      | some a, some b, some c, some d =>
        let n := ((a * 16 + b) * 16 + c) * 16 + d
        if 0xD800 ≤ n && n ≤ 0xDBFF then
          match cs with
          | '\\' :: 'u' :: g1 :: g2 :: g3 :: g4 :: cs' =>
            (match hexVal g1, hexVal g2, hexVal g3, hexVal g4 with
            | some a', some b', some c', some d' =>
              let m := ((a' * 16 + b') * 16 + c') * 16 + d'
              if 0xDC00 ≤ m && m ≤ 0xDFFF then
                parseStringBody fuel
                  (Char.ofNat (0x10000 + (n - 0xD800) * 1024 + (m - 0xDC00)) :: acc) cs'
              else parseStringBody fuel (Char.ofNat n :: acc) cs
            | _, _, _, _ => parseStringBody fuel (Char.ofNat n :: acc) cs)
          | _ => parseStringBody fuel (Char.ofNat n :: acc) cs
        else parseStringBody fuel (Char.ofNat n :: acc) cs
      | _, _, _, _ => none)
    | '\\' :: _ => none
    | c :: cs => if c.toNat < 32 then none else parseStringBody fuel (c :: acc) cs

/-- Consume a maximal run of digits, accumulating the value. -/
def parseDigits (acc : Nat) : List Char → Nat × List Char
  | c :: cs =>
    if c.isDigit then parseDigits (acc * 10 + (c.toNat - 48)) cs else (acc, c :: cs)
  | [] => (acc, [])

/-- Consume a maximal run of digits, accumulating value and digit count. -/
def parseDigitsCount (acc k : Nat) : List Char → Nat × Nat × List Char
  | c :: cs =>
    if c.isDigit then parseDigitsCount (acc * 10 + (c.toNat - 48)) (k + 1) cs
    else (acc, k, c :: cs)
  | [] => (acc, k, [])

/-- Integer part of a JSON number: `0`, or a nonzero digit followed by digits. -/
def parseIntPart : List Char → Option (Nat × List Char)
  | '0' :: cs => some (0, cs)
  | c :: cs => if c.isDigit then some (parseDigits (c.toNat - 48) cs) else none
  | [] => none

/-- Fraction part of a JSON number (input starts after the dot): one or more
digits, returning value, digit count and rest. -/
def parseFracPart : List Char → Option (Nat × Nat × List Char)
  | c :: cs => if c.isDigit then some (parseDigitsCount (c.toNat - 48) 1 cs) else none
  | [] => none

/-- Exponent part of a JSON number (input starts after `e`/`E`): optional sign
then one or more digits. -/
def parseExpPart (cs : List Char) : Option (Int × List Char) :=
  match cs with
  | '+' :: rest => (match rest with
    | c :: cs' => if c.isDigit then
        (fun p => some ((p.1 : Int), p.2)) (parseDigits (c.toNat - 48) cs') else none
    | [] => none)
  | '-' :: rest => (match rest with
    | c :: cs' => if c.isDigit then
        (fun p => some (-(p.1 : Int), p.2)) (parseDigits (c.toNat - 48) cs') else none
    | [] => none)
  | c :: cs' => if c.isDigit then
      (fun p => some ((p.1 : Int), p.2)) (parseDigits (c.toNat - 48) cs') else none
  | [] => none

/-- Assemble a JSON number: without fraction or exponent it is a Python int;
otherwise a float, represented exactly as a decimal `m / 10 ^ e`. -/
def mkJsonNum (neg : Bool) (ip : Nat) (fv fc : Nat) (ex : Int) : JsonValue :=
  let mant : Nat := ip * 10 ^ fc + fv
  let m : Int := if neg then -(mant : Int) else (mant : Int)
  let scale : Int := (fc : Int) - ex
  if scale ≤ 0 then .dec (m * (10 : Int) ^ (-scale).toNat) 0
  else .dec m scale.toNat

/-- Parse a JSON number literal (RFC 8259 grammar; Python's `NaN`/`Infinity`
extension is not modelled). -/
def parseNumber (cs : List Char) : Option (JsonValue × List Char) := do
  let (neg, cs1) := match cs with | '-' :: rest => (true, rest) | _ => (false, cs)
  let (ip, cs2) ← parseIntPart cs1
  match cs2 with
  | '.' :: cs3 => do
    let (fv, fc, cs4) ← parseFracPart cs3
    match cs4 with
    | 'e' :: cs5 => do
      let (ex, cs6) ← parseExpPart cs5
      pure (mkJsonNum neg ip fv fc ex, cs6)
    | 'E' :: cs5 => do
      let (ex, cs6) ← parseExpPart cs5
      pure (mkJsonNum neg ip fv fc ex, cs6)
    | _ => pure (mkJsonNum neg ip fv fc 0, cs4)
  | 'e' :: cs5 => do
    let (ex, cs6) ← parseExpPart cs5
    pure (mkJsonNum neg ip 0 0 ex, cs6)
  | 'E' :: cs5 => do
    let (ex, cs6) ← parseExpPart cs5
    pure (mkJsonNum neg ip 0 0 ex, cs6)
  | _ => pure (.int (if neg then -(ip : Int) else (ip : Int)), cs2)

mutual

/-- Parse one JSON value; `fuel` bounds recursion depth (chosen large enough in
`json_loads` that it never runs out on an input of the given length). -/
def parseValue : Nat → List Char → Option (JsonValue × List Char)
  | 0, _ => none
  | fuel + 1, cs =>
    match skipJsonWs cs with
    | 'n' :: 'u' :: 'l' :: 'l' :: rest => some (.null, rest)
    | 't' :: 'r' :: 'u' :: 'e' :: rest => some (.bool true, rest)
    | 'f' :: 'a' :: 'l' :: 's' :: 'e' :: rest => some (.bool false, rest)
    | '"' :: rest => (parseStringBody (rest.length + 1) [] rest).map (fun p => (.str p.1, p.2))
    | '[' :: rest =>
      (match skipJsonWs rest with
      | ']' :: r2 => some (.arr [], r2)
      | cs2 => (parseArrayItems fuel cs2).map (fun p => (.arr p.1, p.2)))
    | '{' :: rest =>
      (match skipJsonWs rest with
      | '}' :: r2 => some (.obj [], r2)
      | cs2 => (parseObjectItems fuel cs2).map (fun p => (.obj p.1, p.2)))
    | cs1 => parseNumber cs1

/-- Parse the comma-separated items of a non-empty JSON array, up to and
including the closing bracket. -/
def parseArrayItems : Nat → List Char → Option (List JsonValue × List Char)
  | 0, _ => none
  | fuel + 1, cs => do
    let (v, r) ← parseValue fuel cs
    match skipJsonWs r with
    | ',' :: r2 => do
      let (vs, r3) ← parseArrayItems fuel r2
      pure (v :: vs, r3)
    | ']' :: r2 => pure ([v], r2)
    | _ => none

/-- Parse the comma-separated members of a non-empty JSON object, up to and
including the closing brace. -/
def parseObjectItems : Nat → List Char → Option (List (String × JsonValue) × List Char)
  | 0, _ => none
  | fuel + 1, cs =>
    match skipJsonWs cs with
    | '"' :: r =>
      (match parseStringBody (r.length + 1) [] r with
      | none => none
      | some (k, r1) =>
        match skipJsonWs r1 with
        | ':' :: r2 => do
          let (v, r3) ← parseValue fuel r2
          (match skipJsonWs r3 with
          | ',' :: r4 => do
            let (kvs, r5) ← parseObjectItems fuel r4
            pure ((k, v) :: kvs, r5)
          | '}' :: r4 => pure ([(k, v)], r4)
          | _ => none)
        | _ => none)
    | _ => none

end

/-- Model of Python's `json.loads` on the raw response text (app.py line 169):
parse one JSON value and require that only whitespace follows; any other
input raises `json.JSONDecodeError`, modelled as `none`. -/
def json_loads (s : String) : Option JsonValue := do
  let (v, rest) ← parseValue (s.data.length + 2) s.data
  match skipJsonWs rest with
  | [] => some v
  | _ => none

/-- Abstraction of the external PyPDF2 reader on an uploaded byte stream
(app.py lines 111-112): either `PyPDF2.PdfReader` raises on a byte stream
that is not a valid PDF (`malformed`), or it yields the list of per-page
`page.extract_text()` strings in document order (`pages`). -/
inductive PdfDoc where
  | malformed : PdfDoc
  | pages (ps : List String) : PdfDoc

namespace PDFProcessor

/-- Model of `PDFProcessor.extract_text` (app.py lines 107-122): joins the
per-page texts that are truthy (non-empty) with a single space; returns
`None` both when the joined text is empty and when the reader raised.  The
`st.error`/`logger` calls are UI and logging side effects with no influence
on the returned value. -/
def extract_text (doc : PdfDoc) : Option String :=
  match doc with
  | .malformed => none
  | .pages ps =>
    let text := " ".intercalate (ps.filter (fun p => !p.isEmpty))
    if text = "" then none else some text

end PDFProcessor

/-- Text of the prompt f-string (app.py lines 145-165) before the interpolated
`job_desc`. -/
def promptP1 : String :=
  "\n        ROLE: Senior Technical Recruiter & AI Engineer.\n        TASK: Analyze the Candidate CV against the Job Description.\n        \n        JOB DESCRIPTION:\n        "

/-- Text of the prompt f-string between the interpolated `job_desc` and
`cv_text`. -/
def promptP2 : String :=
  "\n        \n        CANDIDATE CV:\n        "

/-- Text of the prompt f-string after the interpolated `cv_text`. -/
def promptP3 : String :=
  "\n        \n        OUTPUT FORMAT (JSON ONLY):\n        \x7b\n            \"technical_score\": <0-100>,\n            \"experience_score\": <0-100>,\n            \"soft_skill_score\": <0-100>,\n            \"overall_average\": <0-100>,\n            \"missing_keywords\": [\"list\", \"of\", \"missing\", \"tech\", \"keywords\"],\n            \"candidate_summary\": \"Technical summary of the candidate.\",\n            \"interview_question\": \"One hard technical interview question.\"\n        \x7d\n        "

/-- The prompt f-string of `AIAnalyzer.analyze` (app.py lines 145-165): plain
string interpolation of the two inputs between fixed literal parts.  The
source has no separate PromptBuilder class; this inline f-string is the
prompt-building step. -/
def buildPrompt (job_desc cv_text : String) : String :=
  promptP1 ++ job_desc ++ promptP2 ++ cv_text ++ promptP3

namespace AIAnalyzer

/-- Model of `AIAnalyzer.analyze` (app.py lines 142-174).  `model` is the
value of `self.model`: `none` when `_configure_model` raised and returned
`None` (app.py lines 131-140), `some ()` otherwise.  `gen` is the external
generation capability; `gen prompt = none` models an exception raised by
`self.model.generate_content(prompt)` or by the `response.text` accessor,
`some raw` a returned raw text.  The first component is the returned
`Optional[AnalysisResult]` (the `except` block turns any exception from
`json.loads` or `from_dict` into `None`); the second component records, in
order, the prompts passed to the generation capability during the call. -/
def analyze (model : Option Unit) (gen : String → Option String)
    (job_desc cv_text : String) : Option AnalysisResult × List String :=
  match model with
  | none => (none, [])
  | some _ =>
    let prompt := buildPrompt job_desc cv_text
    match gen prompt with
    | none => (none, [prompt])
    | some raw =>
      match json_loads raw with
      | none => (none, [prompt])
      | some data => (AnalysisResult.from_dict data, [prompt])

end AIAnalyzer


/-- Containment of one string in another as a contiguous substring. -/
def SubstringOf (needle hay : String) : Prop :=
  ∃ l r, hay = l ++ needle ++ r

/-- Raw response text of the worked scenario in the spec (a JSON object with an
integer score, a string-coded score, a float score, an out-of-range score and
a mixed-type keyword list). -/
def scenarioRaw : String :=
  "\x7b\"technical_score\": 55, \"experience_score\": \"40\", \"soft_skill_score\": 70.9, \"overall_average\": 88, \"missing_keywords\": [\"Go\", \"distributed systems\", 5], \"candidate_summary\": \"Junior-to-mid profile\", \"interview_question\": \"Explain goroutines vs threads.\"\x7d"

/-- Key/value list that `json_loads` produces for `scenarioRaw`. -/
def scenarioKvs : List (String × JsonValue) :=
  [("technical_score", .int 55), ("experience_score", .str "40"),
   ("soft_skill_score", .dec 709 1), ("overall_average", .int 88),
   ("missing_keywords", .arr [.str "Go", .str "distributed systems", .int 5]),
   ("candidate_summary", .str "Junior-to-mid profile"),
   ("interview_question", .str "Explain goroutines vs threads.")]

theorem scenarioRaw_parses : json_loads scenarioRaw = some (.obj scenarioKvs) := rfl

/-- Helper: `from_dict` on a dict whose four score values coerce successfully
returns the record of the coerced scores and the pass-through fields. -/
theorem from_dict_coercible (kvs : List (String × JsonValue)) (ts es ss oa : Int)
    (hts : pyInt (jgetD kvs "technical_score" (.int 0)) = some ts)
    (hes : pyInt (jgetD kvs "experience_score" (.int 0)) = some es)
    (hss : pyInt (jgetD kvs "soft_skill_score" (.int 0)) = some ss)
    (hoa : pyInt (jgetD kvs "overall_average" (.int 0)) = some oa) :
    AnalysisResult.from_dict (JsonValue.obj kvs) =
      some ⟨ts, es, ss, oa,
        jgetD kvs "missing_keywords" (.arr []),
        jgetD kvs "candidate_summary" (.str "N/A"),
        jgetD kvs "interview_question" (.str "N/A")⟩ := by
  simp only [AnalysisResult.from_dict, hts, hes, hss, hoa]

/-- Helper: `from_dict` on any non-dict value raises (`none`), since `.get`
is a dict method. -/
theorem from_dict_non_obj (v : JsonValue) (h : ∀ kvs, v ≠ JsonValue.obj kvs) :
    AnalysisResult.from_dict v = none := by
  cases v <;> first | rfl | exact absurd rfl (h _)

/-- Helper: a string append is empty only if both parts are. -/
theorem string_append_ne_empty (a b : String) (ha : a ≠ "") : a ++ b ≠ "" := by
  intro hab
  apply ha
  apply String.ext
  have hd : (a ++ b).data = ("" : String).data := by rw [hab]
  rw [String.data_append] at hd
  exact (List.append_eq_nil.mp hd).1

/-- Helper: the fold inside `String.intercalate` only ever appends to its
accumulator. -/
theorem intercalate_go_exists (s : String) (l : List String) :
    ∀ acc, ∃ t, String.intercalate.go acc s l = acc ++ t := by
  induction l with
  | nil => exact fun acc => ⟨"", by simp [String.intercalate.go]⟩
  | cons a as ih =>
    intro acc
    obtain ⟨t, ht⟩ := ih (acc ++ s ++ a)
    refine ⟨s ++ a ++ t, ?_⟩
    simp only [String.intercalate.go]
    rw [ht]
    simp [String.append_assoc]

/-- Helper: a space-join of a list with a non-empty head is non-empty. -/
theorem intercalate_cons_ne_empty (x : String) (xs : List String) (hx : x ≠ "") :
    " ".intercalate (x :: xs) ≠ "" := by
  obtain ⟨t, ht⟩ := intercalate_go_exists " " xs x
  have hi : " ".intercalate (x :: xs) = x ++ t := by
    simpa [String.intercalate] using ht
  rw [hi]
  exact string_append_ne_empty x t hx

/-- Helper: the Python truthiness test on a string, as a proposition. -/
theorem string_not_isEmpty_iff (p : String) : (!p.isEmpty) = true ↔ ¬p = "" := by
  constructor
  · intro hb hp
    rw [hp] at hb
    exact absurd hb (by decide)
  · intro hne
    cases hb : p.isEmpty
    · rfl
    · exact absurd ((String.isEmpty_iff p).mp hb) hne

/-- C1 counterexample: construction is not total and does not clamp.  The
mapping `{"technical_score": "not a number"}` makes `from_dict` raise
(`int("not a number")` is a `ValueError`), and the mapping
`{"technical_score": 150}` yields the field value `150`, outside `[0,100]`. -/
theorem C1_counterexample :
    AnalysisResult.from_dict
      (JsonValue.obj [("technical_score", JsonValue.str "not a number")]) = none ∧
    (AnalysisResult.from_dict
      (JsonValue.obj [("technical_score", JsonValue.int 150)])).map
        AnalysisResult.technical_score = some 150 ∧
    ¬((150 : Int) ≤ 100) :=
  ⟨rfl, rfl, by decide⟩

/-- C1 amended: for every mapping whose four score values (after the default
`0` for missing keys) are int-coercible, `from_dict` returns a result whose
numeric fields equal those coercions — unclamped, so they need not lie in
`[0,100]`; when some score value is not coercible, construction raises
rather than falling back to a default. -/
theorem C1_amended (kvs : List (String × JsonValue)) (ts es ss oa : Int)
    (hts : pyInt (jgetD kvs "technical_score" (.int 0)) = some ts)
    (hes : pyInt (jgetD kvs "experience_score" (.int 0)) = some es)
    (hss : pyInt (jgetD kvs "soft_skill_score" (.int 0)) = some ss)
    (hoa : pyInt (jgetD kvs "overall_average" (.int 0)) = some oa) :
    AnalysisResult.from_dict (JsonValue.obj kvs) =
      some ⟨ts, es, ss, oa,
        jgetD kvs "missing_keywords" (.arr []),
        jgetD kvs "candidate_summary" (.str "N/A"),
        jgetD kvs "interview_question" (.str "N/A")⟩ :=
  from_dict_coercible kvs ts es ss oa hts hes hss hoa

/-- C1 witness: the empty mapping and a mapping with a string-coded and an
out-of-range score, evaluated concretely. -/
theorem C1_amended_witness :
    AnalysisResult.from_dict
      (JsonValue.obj [("technical_score", JsonValue.str "150"),
                      ("overall_average", JsonValue.dec 709 1)]) =
      some ⟨150, 0, 0, 70, .arr [], .str "N/A", .str "N/A"⟩ :=
  C1_amended [("technical_score", JsonValue.str "150"),
              ("overall_average", JsonValue.dec 709 1)] 150 0 0 70 rfl rfl rfl rfl

/-- C2 counterexample: the raw text `{"technical_score": "abc"}` parses
successfully as a JSON object, yet `analyze` returns `None` — the
non-coercible score is surfaced as an analysis failure, not absorbed as 0. -/
theorem C2_counterexample :
    json_loads "\x7b\"technical_score\": \"abc\"\x7d" =
      some (JsonValue.obj [("technical_score", JsonValue.str "abc")]) ∧
    AIAnalyzer.analyze (some ()) (fun _ => some "\x7b\"technical_score\": \"abc\"\x7d")
      "jd" "cv" = (none, [buildPrompt "jd" "cv"]) :=
  ⟨rfl, rfl⟩

/-- C2 amended: for every response parsing as a JSON object whose four score
values are int-coercible (ints pass through, floats truncate, numeric
strings parse; out-of-range values are not clamped), `analyze` returns a
successful result built from those coercions; a non-coercible score value
inside a successfully parsed object makes the whole analysis fail with
`None` instead of falling back to 0. -/
theorem C2_amended (gen : String → Option String) (jd cv raw : String)
    (kvs : List (String × JsonValue)) (ts es ss oa : Int)
    (hgen : gen (buildPrompt jd cv) = some raw)
    (hraw : json_loads raw = some (JsonValue.obj kvs))
    (hts : pyInt (jgetD kvs "technical_score" (.int 0)) = some ts)
    (hes : pyInt (jgetD kvs "experience_score" (.int 0)) = some es)
    (hss : pyInt (jgetD kvs "soft_skill_score" (.int 0)) = some ss)
    (hoa : pyInt (jgetD kvs "overall_average" (.int 0)) = some oa) :
    AIAnalyzer.analyze (some ()) gen jd cv =
      (some ⟨ts, es, ss, oa,
        jgetD kvs "missing_keywords" (.arr []),
        jgetD kvs "candidate_summary" (.str "N/A"),
        jgetD kvs "interview_question" (.str "N/A")⟩, [buildPrompt jd cv]) := by
  have hfd := from_dict_coercible kvs ts es ss oa hts hes hss hoa
  simp only [AIAnalyzer.analyze, hgen, hraw, hfd]

/-- C2 witness: the spec's worked scenario — integer 55, string "40", float
70.9 and out-of-range 88 — evaluated end to end through `analyze`. -/
theorem C2_amended_witness :
    AIAnalyzer.analyze (some ()) (fun _ => some scenarioRaw)
      "Senior Go engineer, 5+ years, distributed systems"
      "3 years Python, some Go scripting" =
      (some ⟨55, 40, 70, 88, .arr [.str "Go", .str "distributed systems", .int 5],
        .str "Junior-to-mid profile", .str "Explain goroutines vs threads."⟩,
       [buildPrompt "Senior Go engineer, 5+ years, distributed systems"
         "3 years Python, some Go scripting"]) :=
  C2_amended (fun _ => some scenarioRaw)
    "Senior Go engineer, 5+ years, distributed systems"
    "3 years Python, some Go scripting" scenarioRaw scenarioKvs
    55 40 70 88 rfl rfl rfl rfl rfl rfl

/-- C3 counterexample: on input list `["Go", "distributed systems", 5]` the
non-string entry `5` is NOT dropped — the stored `missing_keywords` value
is the unfiltered list, which differs from `["Go", "distributed systems"]`. -/
theorem C3_counterexample :
    (AnalysisResult.from_dict (JsonValue.obj [("missing_keywords",
        JsonValue.arr [.str "Go", .str "distributed systems", .int 5])])).map
      AnalysisResult.missing_keywords =
      some (JsonValue.arr [.str "Go", .str "distributed systems", .int 5]) ∧
    JsonValue.arr [.str "Go", .str "distributed systems", .int 5] ≠
      JsonValue.arr [.str "Go", .str "distributed systems"] := by
  refine ⟨rfl, fun h => ?_⟩
  injection h with h'
  simp at h'

/-- C3 amended: `from_dict` performs no filtering at all on `missing_keywords`:
the value (string entries and non-string entries alike, in order) is passed
through unchanged, and whether construction succeeds depends only on the
int-coercibility of the four score values, never on the keyword list. -/
theorem C3_amended (kvs : List (String × JsonValue)) :
    (∀ r, AnalysisResult.from_dict (JsonValue.obj kvs) = some r →
      r.missing_keywords = jgetD kvs "missing_keywords" (JsonValue.arr [])) ∧
    ((AnalysisResult.from_dict (JsonValue.obj kvs)).isSome ↔
      (pyInt (jgetD kvs "technical_score" (JsonValue.int 0))).isSome ∧
      (pyInt (jgetD kvs "experience_score" (JsonValue.int 0))).isSome ∧
      (pyInt (jgetD kvs "soft_skill_score" (JsonValue.int 0))).isSome ∧
      (pyInt (jgetD kvs "overall_average" (JsonValue.int 0))).isSome) := by
  constructor
  · intro r h
    cases h1 : pyInt (jgetD kvs "technical_score" (JsonValue.int 0)) <;>
    cases h2 : pyInt (jgetD kvs "experience_score" (JsonValue.int 0)) <;>
    cases h3 : pyInt (jgetD kvs "soft_skill_score" (JsonValue.int 0)) <;>
    cases h4 : pyInt (jgetD kvs "overall_average" (JsonValue.int 0)) <;>
      simp only [AnalysisResult.from_dict, h1, h2, h3, h4] at h <;>
      first
      | (cases h
         rfl)
      | cases h
  · cases h1 : pyInt (jgetD kvs "technical_score" (JsonValue.int 0)) <;>
    cases h2 : pyInt (jgetD kvs "experience_score" (JsonValue.int 0)) <;>
    cases h3 : pyInt (jgetD kvs "soft_skill_score" (JsonValue.int 0)) <;>
    cases h4 : pyInt (jgetD kvs "overall_average" (JsonValue.int 0)) <;>
      simp [AnalysisResult.from_dict, h1, h2, h3, h4]

/-- C3 witness: the spec's example list, passed through unchanged with the
integer entry retained. -/
theorem C3_amended_witness :
    (⟨0, 0, 0, 0, JsonValue.arr [.str "Go", .str "distributed systems", .int 5],
        JsonValue.str "N/A", JsonValue.str "N/A"⟩ : AnalysisResult).missing_keywords =
      jgetD [("missing_keywords",
          JsonValue.arr [.str "Go", .str "distributed systems", .int 5])]
        "missing_keywords" (JsonValue.arr []) :=
  (C3_amended [("missing_keywords",
      JsonValue.arr [.str "Go", .str "distributed systems", .int 5])]).1
    ⟨0, 0, 0, 0, JsonValue.arr [.str "Go", .str "distributed systems", .int 5],
      JsonValue.str "N/A", JsonValue.str "N/A"⟩ rfl

/-- C4 confirmed: with a configured model, `analyze` returns the failure value
`None` (the code's rendering of `GenerationFailed` — every analysis failure
is caught by the `except` block and reported as `None`, never re-raised)
whenever (a) the generation call raises, (b) the raw text is not parseable
as JSON, or (c) the parsed top level is not an object (the subsequent
`from_dict` raises `AttributeError` inside the same `try`); `json_loads` is
applied at most once to the raw text, with no retry. -/
theorem C4_generation_failure_paths (gen : String → Option String)
    (jd cv raw : String) (v : JsonValue) :
    (gen (buildPrompt jd cv) = none →
      AIAnalyzer.analyze (some ()) gen jd cv = (none, [buildPrompt jd cv])) ∧
    (gen (buildPrompt jd cv) = some raw → json_loads raw = none →
      AIAnalyzer.analyze (some ()) gen jd cv = (none, [buildPrompt jd cv])) ∧
    (gen (buildPrompt jd cv) = some raw → json_loads raw = some v →
      (∀ kvs, v ≠ JsonValue.obj kvs) →
      AIAnalyzer.analyze (some ()) gen jd cv = (none, [buildPrompt jd cv])) := by
  refine ⟨fun hg => ?_, fun hg hj => ?_, fun hg hj hv => ?_⟩
  · simp [AIAnalyzer.analyze, hg]
  · simp [AIAnalyzer.analyze, hg, hj]
  · simp [AIAnalyzer.analyze, hg, hj, from_dict_non_obj v hv]

/-- C4 witness: the generation function returns the malformed text
`"{not valid json"`; parsing fails and `analyze` reports `None`. -/
theorem C4_witness :
    json_loads "\x7bnot valid json" = none ∧
    AIAnalyzer.analyze (some ()) (fun _ => some "\x7bnot valid json") "req" "cand" =
      (none, [buildPrompt "req" "cand"]) :=
  ⟨rfl, (C4_generation_failure_paths (fun _ => some "\x7bnot valid json") "req" "cand"
      "\x7bnot valid json" JsonValue.null).2.1 rfl rfl⟩

/-- C5 counterexample: `extract_text` returns the same value `None` for a
malformed byte stream and for a valid document with zero extractable text —
there are no distinct `MalformedDocument` / `EmptyContent` error kinds in
the return value, so the caller cannot distinguish the two failures. -/
theorem C5_counterexample :
    PDFProcessor.extract_text PdfDoc.malformed = none ∧
    PDFProcessor.extract_text (PdfDoc.pages []) = none ∧
    PDFProcessor.extract_text PdfDoc.malformed =
      PDFProcessor.extract_text (PdfDoc.pages []) :=
  ⟨rfl, rfl, rfl⟩

/-- C5 amended: for a byte stream that is not a valid document `extract_text`
returns `None` and never a string, and for a valid document with zero
extractable text it also returns `None`; both failures are reported as the
same return value (never raised to the caller), the two cases being told
apart only by the UI message side effects, not by the error kind. -/
theorem C5_amended (ps : List String) (h : ∀ p ∈ ps, p = "") :
    PDFProcessor.extract_text PdfDoc.malformed = none ∧
    PDFProcessor.extract_text (PdfDoc.pages ps) = none := by
  refine ⟨rfl, ?_⟩
  have hf : ps.filter (fun p => !p.isEmpty) = [] := by
    rw [List.filter_eq_nil_iff]
    intro p hp
    rw [h p hp]
    decide
  simp [PDFProcessor.extract_text, hf, String.intercalate]

/-- C5 witness: a two-page document with no text on either page. -/
theorem C5_amended_witness :
    PDFProcessor.extract_text PdfDoc.malformed = none ∧
    PDFProcessor.extract_text (PdfDoc.pages ["", ""]) = none :=
  C5_amended ["", ""] (by decide)

/-- C6 confirmed: with a configured model, every `analyze` call passes exactly
one prompt to the generation capability — the recorded call trace is the
one-element list holding the built prompt, whatever the generation outcome —
and that prompt contains the requirement text and the candidate text
verbatim as contiguous substrings. -/
theorem C6_single_invocation (gen : String → Option String) (jd cv : String) :
    (AIAnalyzer.analyze (some ()) gen jd cv).2 = [buildPrompt jd cv] ∧
    (AIAnalyzer.analyze (some ()) gen jd cv).2.length = 1 ∧
    SubstringOf jd (buildPrompt jd cv) ∧ SubstringOf cv (buildPrompt jd cv) := by
  have htrace : (AIAnalyzer.analyze (some ()) gen jd cv).2 = [buildPrompt jd cv] := by
    rcases hg : gen (buildPrompt jd cv) with _ | raw
    · simp [AIAnalyzer.analyze, hg]
    · rcases hj : json_loads raw with _ | v
      · simp [AIAnalyzer.analyze, hg, hj]
      · simp [AIAnalyzer.analyze, hg, hj]
  refine ⟨htrace, by rw [htrace]; rfl, ⟨promptP1, promptP2 ++ cv ++ promptP3, ?_⟩,
    ⟨promptP1 ++ jd ++ promptP2, promptP3, ?_⟩⟩ <;>
    simp [buildPrompt, String.append_assoc]

/-- C7 confirmed: whenever extraction of a valid document succeeds, the result
is the single-space join, in document order, of the page texts that have
content — in particular, when every page text is non-empty it is exactly the
single-space join of all the per-page texts — and the result is non-empty. -/
theorem C7_success_join (ps : List String) (s : String)
    (h : PDFProcessor.extract_text (PdfDoc.pages ps) = some s) :
    s = " ".intercalate (ps.filter (fun p => !p.isEmpty)) ∧
    ((∀ p ∈ ps, ¬p = "") → s = " ".intercalate ps) ∧
    s ≠ "" := by
  simp only [PDFProcessor.extract_text] at h
  split at h
  · cases h
  · rename_i hne
    cases h
    refine ⟨rfl, fun hall => ?_, hne⟩
    have hfs : ps.filter (fun p => !p.isEmpty) = ps :=
      List.filter_eq_self.mpr fun p hp => (string_not_isEmpty_iff p).mpr (hall p hp)
    rw [hfs]

/-- C7 witness: a two-page document with texts "a" and "b". -/
theorem C7_witness :
    "a b" = " ".intercalate (["a", "b"].filter (fun p => !p.isEmpty)) ∧
    ((∀ p ∈ ["a", "b"], ¬p = "") → "a b" = " ".intercalate ["a", "b"]) ∧
    "a b" ≠ "" :=
  C7_success_join ["a", "b"] "a b" rfl

/-- C8 confirmed: prompt building is a pure function of the two input strings —
identical inputs give identical output, and the output is exactly the fixed
literal parts with the two inputs interpolated, so there is no timestamp or
other hidden nondeterminism; it is total over all strings, empty included. -/
theorem C8_prompt_deterministic (jd cv jd' cv' : String)
    (h1 : jd = jd') (h2 : cv = cv') :
    buildPrompt jd cv = buildPrompt jd' cv' ∧
    buildPrompt jd cv = promptP1 ++ jd ++ promptP2 ++ cv ++ promptP3 := by
  subst h1
  subst h2
  exact ⟨rfl, rfl⟩

/-- C8 witness: both inputs empty. -/
theorem C8_witness :
    buildPrompt "" "" = buildPrompt "" "" ∧
    buildPrompt "" "" = promptP1 ++ "" ++ promptP2 ++ "" ++ promptP3 :=
  C8_prompt_deterministic "" "" "" "" rfl rfl

/-- C9 confirmed: pages whose extracted text is empty are omitted entirely from
the join — they contribute neither text nor a separator space — and
extraction succeeds exactly when at least one page yields a non-empty text
string (a whitespace-only page counts as non-empty). -/
theorem C9_empty_pages_omitted (ps : List String) :
    (ps.filter (fun p => !p.isEmpty) = [] →
      PDFProcessor.extract_text (PdfDoc.pages ps) = none) ∧
    (∀ x xs, ps.filter (fun p => !p.isEmpty) = x :: xs →
      PDFProcessor.extract_text (PdfDoc.pages ps) =
        some (" ".intercalate (x :: xs))) ∧
    ((PDFProcessor.extract_text (PdfDoc.pages ps)).isSome = true ↔
      ∃ p ∈ ps, ¬p = "") := by
  have h1 : ps.filter (fun p => !p.isEmpty) = [] →
      PDFProcessor.extract_text (PdfDoc.pages ps) = none := by
    intro hf
    simp [PDFProcessor.extract_text, hf, String.intercalate]
  have h2 : ∀ x xs, ps.filter (fun p => !p.isEmpty) = x :: xs →
      PDFProcessor.extract_text (PdfDoc.pages ps) =
        some (" ".intercalate (x :: xs)) := by
    intro x xs hf
    have hxmem : x ∈ ps.filter (fun p => !p.isEmpty) := by
      rw [hf]
      exact List.mem_cons_self x xs
    have hxne : ¬x = "" :=
      (string_not_isEmpty_iff x).mp (List.mem_filter.mp hxmem).2
    have htne : " ".intercalate (x :: xs) ≠ "" :=
      intercalate_cons_ne_empty x xs hxne
    simp only [PDFProcessor.extract_text, hf]
    rw [if_neg htne]
  refine ⟨h1, h2, ?_⟩
  cases hf : ps.filter (fun p => !p.isEmpty) with
  | nil =>
    rw [h1 hf]
    simp only [Option.isSome_none, Bool.false_eq_true, false_iff]
    rintro ⟨p, hp, hpne⟩
    exact absurd ((string_not_isEmpty_iff p).mpr hpne)
      (List.filter_eq_nil_iff.mp hf p hp)
  | cons x xs =>
    rw [h2 x xs hf]
    simp only [Option.isSome_some, true_iff]
    have hxmem : x ∈ ps.filter (fun p => !p.isEmpty) := by
      rw [hf]
      exact List.mem_cons_self x xs
    exact ⟨x, (List.mem_filter.mp hxmem).1,
      (string_not_isEmpty_iff x).mp (List.mem_filter.mp hxmem).2⟩

/-- C9 witness: a document with an empty page and a whitespace-only page — the
empty page contributes no separator, the whitespace-only page makes
extraction succeed, and the result is exactly the single space of that
page. -/
theorem C9_witness :
    PDFProcessor.extract_text (PdfDoc.pages ["", " "]) = some " " :=
  (C9_empty_pages_omitted ["", " "]).2.1 " " [] rfl

/-- C10 confirmed: when model configuration failed at construction time
(`self.model` is `None`), `analyze` returns the failure `None` immediately
and the generation capability is invoked zero times (the recorded call
trace is empty), for every generation function and every pair of inputs. -/
theorem C10_unconfigured_model (gen : String → Option String) (jd cv : String) :
    AIAnalyzer.analyze none gen jd cv = (none, []) := rfl
